import Mathlib

/-!
Shallow embedding of the TubeGuide pipeline: the server endpoint
(URL-identifier resolution, metadata fetch with defaults, tiered
transcript acquisition) and the client guide assembly (synthesizer
output handling, step enrichment, document-export filename).
External effects (URL parsing, HTTP fetches, JSON parsing) are
passed in as explicit results so the branching logic is pure.
-/

namespace TubeGuide

/-- JS truthiness of an optional string value (`undefined` and `""` are falsy). -/
def isTruthy : Option String → Bool
  | none => false
  | some s => !s.isEmpty

/-- JS `v || d` for an optional string field: the default wins when the field
is absent or the empty string. -/
def orDefault (v : Option String) (d : String) : String :=
  match v with
  | none => d
  | some s => if s.isEmpty then d else s

/-- Substring occurrence over character lists: `sub` occurs contiguously in
`hay` (an empty `sub` occurs everywhere, as in JS). -/
def containsSub (hay sub : List Char) : Bool :=
  match hay with
  | [] => sub.isEmpty
  | _ :: t => if sub.isPrefixOf hay then true else containsSub t sub

/-- JS `s.includes(sub)`. -/
def jsIncludes (s sub : String) : Bool := containsSub s.data sub.data

/-- JS `s.startsWith(pre)`. -/
def jsStartsWith (s pre : String) : Bool := pre.data.isPrefixOf s.data

/-- Character-level split on a single separator: JS `s.split(sep)` keeps
empty pieces, including leading and trailing ones. -/
def splitChars (sep : Char) : List Char → List (List Char)
  | [] => [[]]
  | c :: cs =>
    if c = sep then [] :: splitChars sep cs
    else
      match splitChars sep cs with
      | [] => [[c]]
      | h :: t => (c :: h) :: t

/-- JS `s.split("/")`. -/
def jsSplitOnSlash (s : String) : List String :=
  (splitChars '/' s.data).map String.mk

/-- Result of a successful structured `new URL(url)` parse: the pieces the
resolver inspects (`hostname`, `pathname`, and `searchParams.get` of v). -/
structure URLObj where
  hostname : String
  pathname : String
  vParam : Option String
deriving DecidableEq, Repr

/-- Embedding of `extractVideoId`. `parsed` is the outcome of `new URL(url)`
(`none` when structured parsing throws); `regexCapture` is capture group 7 of
the fallback regular expression applied to the raw url (`none` when the
pattern does not match). Only the fallback branch checks for length 11. -/
def extractVideoId (parsed : Option URLObj) (regexCapture : Option String) :
    Option String :=
  match parsed with
  | some u =>
    if u.hostname = "youtu.be" then
      some (u.pathname.drop 1)
    else if jsIncludes u.hostname "youtube.com" then
      if jsStartsWith u.pathname "/shorts/" then
        (jsSplitOnSlash u.pathname).get? 2
      else u.vParam
    else none
  | none =>
    match regexCapture with
    | some m => if m.length = 11 then some m else none
    | none => none

/-- Which language a remote caption fetch was requested with. -/
inductive LangReq where
  | en
  | defaultLang
deriving DecidableEq, Repr

/-- One caption item `\x7btext, start\x7d` returned by the caption scraper;
`start` is a (possibly fractional) number of seconds. -/
structure CaptionItem where
  start : ℚ
  text : String
deriving DecidableEq, Repr

/-- One transcript line: `[${Math.floor(item.start)}s] ${item.text}`. -/
def formatCaption (it : CaptionItem) : String :=
  "[" ++ toString (Rat.floor it.start) ++ "s] " ++ it.text

/-- The transcript blob: caption items formatted and joined with newlines. -/
def joinTranscript (items : List CaptionItem) : String :=
  String.intercalate "\n" (items.map formatCaption)

/-- The message thrown when both remote transcript attempts fail. -/
def transcriptFailMsg : String :=
  "Could not fetch transcript for this video. Please try \x27Manual Script\x27 mode and paste the transcript yourself."

/-- Embedding of the transcript-acquisition block of the endpoint, instrumented
with the list of remote fetch attempts actually made (in order). `fetchEn` and
`fetchDef` are the outcomes the scraper would produce for the preferred-language
and default-language requests. -/
def acquireTranscriptT (manualTranscript : Option String)
    (fetchEn fetchDef : Except Unit (List CaptionItem)) :
    Except String String × List LangReq :=
  if isTruthy manualTranscript then
    (.ok (manualTranscript.getD ""), [])
  else
    match fetchEn with
    | .ok items => (.ok (joinTranscript items), [.en])
    | .error _ =>
      match fetchDef with
      | .ok items => (.ok (joinTranscript items), [.en, .defaultLang])
      | .error _ => (.error transcriptFailMsg, [.en, .defaultLang])

/-- The JSON body of a successful oembed response; each field is `none` when
missing from the JSON (JS `undefined`). -/
structure OembedData where
  title : Option String
  author_name : Option String
  thumbnail_url : Option String
deriving DecidableEq, Repr

/-- The metadata triple assembled by the endpoint. -/
structure VideoMetadata where
  title : String
  author : String
  thumbnail : String
deriving DecidableEq, Repr

/-- The fallback thumbnail constructed from the identifier. -/
def defaultThumbnail (videoId : String) : String :=
  "https://img.youtube.com/vi/" ++ videoId ++ "/maxresdefault.jpg"

/-- Embedding of the oembed metadata block. `metaResult` is `.error ()` when
the fetch (or its json decoding) throws, `.ok none` when the response status is
not ok, and `.ok (some m)` for an ok response with body `m`. -/
def fetchMetadata (videoId : String)
    (metaResult : Except Unit (Option OembedData)) : VideoMetadata :=
  match metaResult with
  | .error _ => ⟨"YouTube Video", "Unknown Creator", defaultThumbnail videoId⟩
  | .ok none => ⟨"YouTube Video", "Unknown Creator", defaultThumbnail videoId⟩
  | .ok (some m) =>
    ⟨orDefault m.title "YouTube Video",
     orDefault m.author_name "Unknown Creator",
     orDefault m.thumbnail_url (defaultThumbnail videoId)⟩

/-- The JSON body of a successful `/api/process` response. -/
structure SuccessBody where
  title : String
  author : String
  thumbnail : String
  transcript : String
  videoId : String
deriving DecidableEq, Repr

/-- An HTTP response of the endpoint: status code plus either an error body
`\x7berror: msg\x7d` or the success body. -/
structure ApiResponse where
  status : Nat
  body : Except String SuccessBody

/-- Embedding of the `/api/process` handler. `url` and `manualTranscript` are
the request-body fields (absent = `none`); the remaining arguments are the
outcomes of the external calls the handler makes on this request. -/
def processEndpoint (url manualTranscript : Option String)
    (parsed : Option URLObj) (regexCapture : Option String)
    (metaResult : Except Unit (Option OembedData))
    (fetchEn fetchDef : Except Unit (List CaptionItem)) : ApiResponse :=
  if isTruthy url then
    match extractVideoId parsed regexCapture with
    | none => ⟨400, .error "Invalid YouTube URL"⟩
    | some vid =>
      if vid.isEmpty then ⟨400, .error "Invalid YouTube URL"⟩
      else
        let meta := fetchMetadata vid metaResult
        match acquireTranscriptT manualTranscript fetchEn fetchDef with
        | (.error msg, _) => ⟨500, .error msg⟩
        | (.ok t, _) => ⟨200, .ok ⟨meta.title, meta.author, meta.thumbnail, t, vid⟩⟩
  else ⟨400, .error "URL is required"⟩

/-- A step object as decoded from the synthesizer's JSON: the three required
fields plus whatever `imageUrl`/`videoUrl` the model may also have emitted. -/
structure RawStep where
  title : String
  description : String
  timestamp : Int
  imageUrl : Option String
  videoUrl : Option String
deriving DecidableEq, Repr

/-- An enriched guide step as assembled by the client. -/
structure Step where
  title : String
  description : String
  timestamp : Int
  imageUrl : String
  videoUrl : String
deriving DecidableEq, Repr

/-- The assembled guide handed to the presentation layer and exporter. -/
structure GuideData where
  title : String
  author : String
  thumbnail : String
  steps : List Step
  videoId : String
deriving DecidableEq, Repr

/-- Embedding of the enrichment spread `\x7b...step, imageUrl: ..., videoUrl: ...\x7d`:
the explicit keys come after the spread, so the derived urls always win. -/
def enrichStep (videoId : String) (s : RawStep) : Step :=
  ⟨s.title, s.description, s.timestamp,
   "https://img.youtube.com/vi/" ++ videoId ++ "/hqdefault.jpg",
   "https://www.youtube.com/watch?v=" ++ videoId ++ "&t=" ++ toString s.timestamp ++ "s"⟩

/-- The literal substituted for an empty or absent model response text. -/
def emptyStepsLiteral : String := "\x7b\"steps\":[]\x7d"

/-- JS `aiResponse.text || "\x7b\"steps\":[]\x7d"`: the string actually handed to
`JSON.parse`. -/
def effectiveText (t : Option String) : String :=
  match t with
  | none => emptyStepsLiteral
  | some s => if s.isEmpty then emptyStepsLiteral else s

/-- The message thrown when `JSON.parse` fails on the model response. -/
def parseFailMsg : String := "Failed to parse AI response."

/-- Embedding of the client's synthesizer-output handling and guide assembly,
instrumented with the list of strings handed to `JSON.parse` (in order).
`parse` is the outcome `JSON.parse` would produce on a given string, decoded
to the `steps` list. -/
def buildGuideT (title author thumbnail videoId : String)
    (aiText : Option String) (parse : String → Except Unit (List RawStep)) :
    Except String GuideData × List String :=
  let txt := effectiveText aiText
  match parse txt with
  | .error _ => (.error parseFailMsg, [txt])
  | .ok steps =>
    (.ok ⟨title, author, thumbnail, steps.map (enrichStep videoId), videoId⟩, [txt])

/-- Embedding of the exporter's title sanitization
`guide.title.replace(/[^a-z0-9]/gi, "_")`: every character outside
`[a-zA-Z0-9]` is replaced by an underscore. -/
def sanitizeTitle (t : String) : String :=
  ⟨t.data.map (fun c => if c.isAlphanum then c else '_')⟩

/-- The filename passed to `pdf.save`. -/
def pdfFileName (title : String) : String :=
  sanitizeTitle title ++ "_Guide.pdf"

/-- Follows the spec's words, for comparison with `pdfFileName`: the title with
every character outside the alphanumeric set stripped (removed), followed by
the fixed suffix and extension. -/
def specStripFileName (title : String) : String :=
  String.mk (title.data.filter Char.isAlphanum) ++ "_Guide.pdf"

/-- Follows the spec's words, for comparison with `joinTranscript`: each caption
item mapped to the line `[Ns] text` with `N` the start offset truncated to an
integer, the lines newline-joined in caption order. -/
def specTranscriptBlob (items : List CaptionItem) : String :=
  String.intercalate "\n"
    (items.map (fun it => "[" ++ toString (Rat.floor it.start) ++ "s] " ++ it.text))

/-- C1 counterexample: for the input URL `https://youtu.be/abc`, structured
parsing succeeds (hostname `youtu.be`, pathname `/abc`); the resolver captures
the 3-character token `abc` and returns it, and the endpoint accepts it
(status 200) — so resolution does not fail even though the captured token's
length is not 11. -/
theorem claim1_counterexample :
    extractVideoId (some ⟨"youtu.be", "/abc", none⟩) none = some "abc" ∧
    ¬ ("abc".length = 11) ∧
    (processEndpoint (some "https://youtu.be/abc") none
      (some ⟨"youtu.be", "/abc", none⟩) none
      (.error ()) (.ok [⟨0, "hi"⟩]) (.error ())).status = 200 :=
  ⟨rfl, by decide, rfl⟩

/-- C1 (amended): the 11-character length check is enforced only on the regex
fallback branch (taken when structured URL parsing throws): there a captured
token of length other than 11 makes resolution fail. Each of the three
structured-parse branches — short-link host, shorts path, and v query
parameter — returns its captured token with no length check, and on a
structurally parsed URL the endpoint rejects the request as an invalid URL
exactly when the captured token is absent or empty. -/
theorem claim1_fallback_length_check (m : String) (hm : ¬ m.length = 11)
    (u : URLObj) (rc : Option String) :
    extractVideoId none (some m) = none ∧
    (u.hostname = "youtu.be" →
      extractVideoId (some u) rc = some (u.pathname.drop 1)) ∧
    (u.hostname ≠ "youtu.be" → jsIncludes u.hostname "youtube.com" = true →
      jsStartsWith u.pathname "/shorts/" = true →
      extractVideoId (some u) rc = (jsSplitOnSlash u.pathname).get? 2) ∧
    (u.hostname ≠ "youtu.be" → jsIncludes u.hostname "youtube.com" = true →
      jsStartsWith u.pathname "/shorts/" = false →
      extractVideoId (some u) rc = u.vParam) ∧
    (∀ url manual meta fEn fDef, isTruthy url = true →
      (processEndpoint url manual (some u) rc meta fEn fDef =
          ⟨400, .error "Invalid YouTube URL"⟩ ↔
        ((extractVideoId (some u) rc).getD "").isEmpty = true)) := by
  refine ⟨by simp [extractVideoId, hm], ?_, ?_, ?_, ?_⟩
  · intro hu
    simp [extractVideoId, hu]
  · intro hu hinc hsh
    simp [extractVideoId, hu, hinc, hsh]
  · intro hu hinc hsh
    simp [extractVideoId, hu, hinc, hsh]
  · intro url manual meta fEn fDef hurl
    unfold processEndpoint
    rw [hurl]
    simp only [if_true]
    cases hev : extractVideoId (some u) rc with
    | none => exact iff_of_true rfl rfl
    | some v =>
      dsimp only
      by_cases hv : v.isEmpty
      · rw [if_pos hv]
        exact iff_of_true rfl hv
      · rw [if_neg hv]
        rcases hat : acquireTranscriptT manual fEn fDef with ⟨r, atts⟩
        cases r with
        | error msg =>
          dsimp only
          constructor
          · intro h
            simp [ApiResponse.mk.injEq] at h
          · intro h
            exact absurd h hv
        | ok t =>
          dsimp only
          constructor
          · intro h
            simp [ApiResponse.mk.injEq] at h
          · intro h
            exact absurd h hv

/-- C1 witness: the fallback branch rejects the 3-character capture `abc`;
the short-link, shorts-path and v-query branches return their captured tokens
`ab`, `abc` and `xy` without a length check; and on a structurally parsed URL
with no captured token the endpoint answers with the invalid-URL error, in
line with the absent-or-empty criterion. -/
theorem claim1_fallback_length_check_witness :
    extractVideoId none (some "abc") = none ∧
    extractVideoId (some ⟨"youtu.be", "/ab", none⟩) none = some "ab" ∧
    extractVideoId (some ⟨"www.youtube.com", "/shorts/abc", none⟩) none =
      some "abc" ∧
    extractVideoId (some ⟨"www.youtube.com", "/watch", some "xy"⟩) none =
      some "xy" ∧
    (processEndpoint (some "u") none (some ⟨"www.youtube.com", "/watch", none⟩)
        none (.error ()) (.error ()) (.error ()) =
      ⟨400, .error "Invalid YouTube URL"⟩) := by
  refine ⟨(claim1_fallback_length_check "abc" (by decide)
      ⟨"youtu.be", "/ab", none⟩ none).1, ?_, ?_, ?_, ?_⟩
  · have h := (claim1_fallback_length_check "abc" (by decide)
      ⟨"youtu.be", "/ab", none⟩ none).2.1 rfl
    simpa using h
  · have h := (claim1_fallback_length_check "abc" (by decide)
      ⟨"www.youtube.com", "/shorts/abc", none⟩ none).2.2.1 (by decide) rfl rfl
    rw [h]
    rfl
  · exact (claim1_fallback_length_check "abc" (by decide)
      ⟨"www.youtube.com", "/watch", some "xy"⟩ none).2.2.2.1 (by decide) rfl rfl
  · have h := ((claim1_fallback_length_check "abc" (by decide)
      ⟨"www.youtube.com", "/watch", none⟩ none).2.2.2.2
        (some "u") none (.error ()) (.error ()) (.error ()) rfl).mpr rfl
    exact h

/-- C2 counterexample: for the title `My Guide` the code produces
`My_Guide_Guide.pdf` (non-alphanumeric characters replaced by underscores),
not the stripped `MyGuide_Guide.pdf` the claim describes. -/
theorem claim2_counterexample :
    pdfFileName "My Guide" = "My_Guide_Guide.pdf" ∧
    specStripFileName "My Guide" = "MyGuide_Guide.pdf" ∧
    pdfFileName "My Guide" ≠ specStripFileName "My Guide" :=
  ⟨rfl, rfl, by decide⟩

/-- C2 (amended): the exported filename is the title with every character
outside the alphanumeric set replaced by an underscore (not removed), followed
by `_Guide.pdf`; the sanitized part has the same length as the title,
consists only of alphanumeric characters and underscores, and is the
pointwise image of the title under that per-character substitution. -/
theorem claim2_underscore_substitution (title : String) :
    pdfFileName title = sanitizeTitle title ++ "_Guide.pdf" ∧
    (sanitizeTitle title).length = title.length ∧
    (∀ c ∈ (sanitizeTitle title).data, c.isAlphanum = true ∨ c = '_') ∧
    (∀ i : Nat, (sanitizeTitle title).data.get? i =
      (title.data.get? i).map (fun c => if c.isAlphanum then c else '_')) := by
  refine ⟨rfl, ?_, ?_, ?_⟩
  · show (title.data.map _).length = title.data.length
    simp
  · intro c hc
    simp only [sanitizeTitle, List.mem_map] at hc
    obtain ⟨a, _, rfl⟩ := hc
    by_cases ha : a.isAlphanum <;> simp [ha]
  · intro i
    simp [sanitizeTitle, List.get?_map]

/-- C2 witness: the amended statement evaluated at the title `My Guide`. -/
theorem claim2_underscore_substitution_witness :
    pdfFileName "My Guide" = sanitizeTitle "My Guide" ++ "_Guide.pdf" ∧
    (sanitizeTitle "My Guide").length = ("My Guide").length ∧
    (∀ c ∈ (sanitizeTitle "My Guide").data, c.isAlphanum = true ∨ c = '_') ∧
    (∀ i : Nat, (sanitizeTitle "My Guide").data.get? i =
      (("My Guide").data.get? i).map (fun c => if c.isAlphanum then c else '_')) :=
  claim2_underscore_substitution "My Guide"

/-- C3 counterexample: a request with a missing URL and a request with an
unresolvable URL produce the same status code (both 400), so the two failure
kinds are not distinguished by status code. -/
theorem claim3_counterexample :
    (processEndpoint none none none none (.error ()) (.error ()) (.error ())).body =
      .error "URL is required" ∧
    (processEndpoint (some "not a url") none none none
      (.error ()) (.error ()) (.error ())).body = .error "Invalid YouTube URL" ∧
    (processEndpoint none none none none (.error ()) (.error ()) (.error ())).status =
      (processEndpoint (some "not a url") none none none
        (.error ()) (.error ()) (.error ())).status :=
  ⟨rfl, rfl, rfl⟩

/-- C3 (amended): on failure the endpoint returns an error object with a
non-2xx status, but missing URL and unresolvable URL share status 400
(with distinct error messages); an unexpected failure (here: both transcript
fetches throwing) yields the server-error status 500; every error response
has status 400 or 500. -/
theorem claim3_statuses (url manual : Option String) (parsed : Option URLObj)
    (rc : Option String) (meta : Except Unit (Option OembedData))
    (fEn fDef : Except Unit (List CaptionItem)) :
    (isTruthy url = false →
      processEndpoint url manual parsed rc meta fEn fDef =
        ⟨400, .error "URL is required"⟩) ∧
    (isTruthy url = true → (extractVideoId parsed rc).getD "" = "" →
      processEndpoint url manual parsed rc meta fEn fDef =
        ⟨400, .error "Invalid YouTube URL"⟩) ∧
    (∀ v, isTruthy url = true → extractVideoId parsed rc = some v →
      v.isEmpty = false → isTruthy manual = false →
      fEn = .error () → fDef = .error () →
      processEndpoint url manual parsed rc meta fEn fDef =
        ⟨500, .error transcriptFailMsg⟩) ∧
    (∀ e, (processEndpoint url manual parsed rc meta fEn fDef).body = .error e →
      (processEndpoint url manual parsed rc meta fEn fDef).status = 400 ∨
      (processEndpoint url manual parsed rc meta fEn fDef).status = 500) := by
  refine ⟨?_, ?_, ?_, ?_⟩
  · intro h
    simp [processEndpoint, h]
  · intro h1 h2
    unfold processEndpoint
    rw [h1]
    cases hev : extractVideoId parsed rc with
    | none => simp
    | some v =>
      rw [hev] at h2
      simp only [Option.getD_some] at h2
      subst h2
      have hemp : ("" : String).isEmpty = true := rfl
      simp [hemp]
  · intro v h1 h2 h3 h4 h5 h6
    subst h5; subst h6
    unfold processEndpoint
    rw [h1, h2]
    simp [h3, acquireTranscriptT, h4]
  · intro e
    unfold processEndpoint
    by_cases hu : isTruthy url
    · rw [if_pos hu]
      cases hev : extractVideoId parsed rc with
      | none => intro _; left; rfl
      | some v =>
        by_cases hv : v.isEmpty
        · simp [hv]
        · simp only [hv, Bool.false_eq_true, if_false]
          rcases hat : acquireTranscriptT manual fEn fDef with ⟨r, atts⟩
          cases r with
          | error msg => intro _; right; rfl
          | ok t => intro hbody; simp at hbody
    · rw [if_neg hu]
      intro _; left; rfl

/-- C3 witness: the amended statement's branches evaluated on concrete
requests (missing URL; unresolvable URL; both transcript fetches failing). -/
theorem claim3_statuses_witness :
    processEndpoint none none none none (.error ()) (.error ()) (.error ()) =
      ⟨400, .error "URL is required"⟩ ∧
    processEndpoint (some "not a url") none none none
      (.error ()) (.error ()) (.error ()) = ⟨400, .error "Invalid YouTube URL"⟩ ∧
    processEndpoint (some "https://youtu.be/abcdefghijk") none
      (some ⟨"youtu.be", "/abcdefghijk", none⟩) none
      (.error ()) (.error ()) (.error ()) = ⟨500, .error transcriptFailMsg⟩ :=
  ⟨(claim3_statuses none none none none (.error ()) (.error ()) (.error ())).1 rfl,
   (claim3_statuses (some "not a url") none none none
     (.error ()) (.error ()) (.error ())).2.1 rfl rfl,
   (claim3_statuses (some "https://youtu.be/abcdefghijk") none
     (some ⟨"youtu.be", "/abcdefghijk", none⟩) none
     (.error ()) (.error ()) (.error ())).2.2.1 "abcdefghijk" rfl rfl rfl rfl rfl rfl⟩

/-- C4: when the preferred-language fetch fails and the default-language fetch
succeeds, acquisition succeeds with the second result after exactly the two
remote attempts; when both fail, it fails with the manual-mode message; and no
run ever makes more than two remote attempts. -/
theorem claim4_fallback (manual : Option String) (hm : isTruthy manual = false)
    (items : List CaptionItem) :
    acquireTranscriptT manual (.error ()) (.ok items) =
      (.ok (joinTranscript items), [.en, .defaultLang]) ∧
    acquireTranscriptT manual (.error ()) (.error ()) =
      (.error transcriptFailMsg, [.en, .defaultLang]) ∧
    (∀ m fEn fDef, ((acquireTranscriptT m fEn fDef).2).length ≤ 2) := by
  refine ⟨by simp [acquireTranscriptT, hm], by simp [acquireTranscriptT, hm], ?_⟩
  intro m fEn fDef
  unfold acquireTranscriptT
  by_cases h : isTruthy m
  · simp [h]
  · simp only [h, Bool.false_eq_true, if_false]
    cases fEn <;> cases fDef <;> simp

/-- C4 witness: the fallback evaluated with no manual transcript, a failing
preferred-language fetch, and a default-language fetch returning one item. -/
theorem claim4_fallback_witness :
    acquireTranscriptT none (.error ()) (.ok [⟨mkRat 0 1, "hi"⟩]) =
      (.ok "[0s] hi", [.en, .defaultLang]) ∧
    acquireTranscriptT none (.error ()) (.error ()) =
      (.error transcriptFailMsg, [.en, .defaultLang]) := by
  have h := claim4_fallback none rfl [⟨mkRat 0 1, "hi"⟩]
  refine ⟨?_, h.2.1⟩
  rw [h.1]
  rfl

/-- C5: a provided non-empty manual transcript is returned verbatim with zero
remote fetch attempts. -/
theorem claim5_manual_bypass (manual : String) (hm : manual.isEmpty = false)
    (fEn fDef : Except Unit (List CaptionItem)) :
    acquireTranscriptT (some manual) fEn fDef = (.ok manual, []) := by
  simp [acquireTranscriptT, isTruthy, hm]

/-- C5 witness: the bypass evaluated on a concrete manual transcript, with
both remote fetch outcomes present but unused. -/
theorem claim5_manual_bypass_witness :
    acquireTranscriptT (some "hello world") (.error ()) (.ok []) =
      (.ok "hello world", []) :=
  claim5_manual_bypass "hello world" rfl (.error ()) (.ok [])

/-- C6: a failed metadata fetch (transport error or non-success status) yields
all three per-field defaults and never aborts the pipeline: with a resolved
identifier and a successful transcript, the endpoint still answers 200 and the
resulting guide data's author is `Unknown Creator`; a missing individual
response field likewise falls back to that field's default. -/
theorem claim6_metadata_defaults (vid : String)
    (meta : Except Unit (Option OembedData))
    (hfail : meta = .error () ∨ meta = .ok none)
    (url : Option String) (hurl : isTruthy url = true)
    (parsed : Option URLObj) (rc : Option String)
    (hres : extractVideoId parsed rc = some vid) (hv : vid.isEmpty = false)
    (t : String) (ht : t.isEmpty = false)
    (fEn fDef : Except Unit (List CaptionItem)) :
    fetchMetadata vid meta =
      ⟨"YouTube Video", "Unknown Creator", defaultThumbnail vid⟩ ∧
    processEndpoint url (some t) parsed rc meta fEn fDef =
      ⟨200, .ok ⟨"YouTube Video", "Unknown Creator", defaultThumbnail vid, t, vid⟩⟩ ∧
    (∀ m : OembedData, m.title = none →
      (fetchMetadata vid (.ok (some m))).title = "YouTube Video") ∧
    (∀ m : OembedData, m.author_name = none →
      (fetchMetadata vid (.ok (some m))).author = "Unknown Creator") ∧
    (∀ m : OembedData, m.thumbnail_url = none →
      (fetchMetadata vid (.ok (some m))).thumbnail = defaultThumbnail vid) := by
  have hmeta : fetchMetadata vid meta =
      ⟨"YouTube Video", "Unknown Creator", defaultThumbnail vid⟩ := by
    rcases hfail with rfl | rfl <;> rfl
  refine ⟨hmeta, ?_, ?_, ?_, ?_⟩
  · unfold processEndpoint
    rw [hurl, hres]
    simp [hv, acquireTranscriptT, isTruthy, ht, hmeta]
  · intro m hm0; simp [fetchMetadata, hm0, orDefault]
  · intro m hm0; simp [fetchMetadata, hm0, orDefault]
  · intro m hm0; simp [fetchMetadata, hm0, orDefault]

/-- C6 witness: a transport-failed metadata fetch for the identifier
`abcdefghijk`, with a manual transcript supplied, still yields a 200 response
whose author is `Unknown Creator`. -/
theorem claim6_metadata_defaults_witness :
    fetchMetadata "abcdefghijk" (.error ()) =
      ⟨"YouTube Video", "Unknown Creator", defaultThumbnail "abcdefghijk"⟩ ∧
    processEndpoint (some "https://youtu.be/abcdefghijk") (some "my transcript")
      (some ⟨"youtu.be", "/abcdefghijk", none⟩) none
      (.error ()) (.error ()) (.error ()) =
      ⟨200, .ok ⟨"YouTube Video", "Unknown Creator", defaultThumbnail "abcdefghijk",
        "my transcript", "abcdefghijk"⟩⟩ :=
  ⟨(claim6_metadata_defaults "abcdefghijk" (.error ()) (Or.inl rfl)
      (some "https://youtu.be/abcdefghijk") rfl
      (some ⟨"youtu.be", "/abcdefghijk", none⟩) none rfl rfl
      "my transcript" rfl (.error ()) (.error ())).1,
   (claim6_metadata_defaults "abcdefghijk" (.error ()) (Or.inl rfl)
      (some "https://youtu.be/abcdefghijk") rfl
      (some ⟨"youtu.be", "/abcdefghijk", none⟩) none rfl rfl
      "my transcript" rfl (.error ()) (.error ())).2.1⟩

/-- C7: a synthesizer response parsing to N step objects yields a guide whose
steps sequence has length exactly N, in the same order (pointwise the
enrichment of the corresponding candidate), and enrichment always sets
`imageUrl` to the identifier's high-quality thumbnail and `videoUrl` to the
identifier-plus-timestamp deep link, irrespective of any `imageUrl`/`videoUrl`
values the model returned. -/
theorem claim7_roundtrip (title author thumb vid : String)
    (aiText : Option String)
    (parse : String → Except Unit (List RawStep)) (cands : List RawStep)
    (hp : parse (effectiveText aiText) = .ok cands) :
    ∃ g : GuideData,
      (buildGuideT title author thumb vid aiText parse).1 = .ok g ∧
      g.steps.length = cands.length ∧
      g.steps = cands.map (enrichStep vid) ∧
      (∀ i : Nat, g.steps.get? i = (cands.get? i).map (enrichStep vid)) ∧
      (∀ c : RawStep, ∀ iu vu : Option String,
        enrichStep vid { c with imageUrl := iu, videoUrl := vu } =
          enrichStep vid c) ∧
      (∀ c : RawStep,
        (enrichStep vid c).imageUrl =
          "https://img.youtube.com/vi/" ++ vid ++ "/hqdefault.jpg" ∧
        (enrichStep vid c).videoUrl =
          "https://www.youtube.com/watch?v=" ++ vid ++ "&t=" ++
            toString c.timestamp ++ "s") := by
  refine ⟨⟨title, author, thumb, cands.map (enrichStep vid), vid⟩,
    ?_, by simp, rfl, ?_, ?_, ?_⟩
  · simp [buildGuideT, hp]
  · intro i; simp [List.get?_map]
  · intro c iu vu; rfl
  · intro c; exact ⟨rfl, rfl⟩

/-- C7 witness: a response parsing to one step (which even carries its own
`imageUrl`/`videoUrl` values) yields a one-step guide whose urls are the
derived ones. -/
theorem claim7_roundtrip_witness :
    ∃ g : GuideData,
      (buildGuideT "T" "A" "Th" "abcdefghijk" (some "resp")
        (fun s => if s = "resp"
          then .ok [⟨"S1", "D1", 5, some "model-img", some "model-vid"⟩]
          else .error ())).1 = .ok g ∧
      g.steps.length = [(⟨"S1", "D1", 5, some "model-img", some "model-vid"⟩ : RawStep)].length ∧
      g.steps = [(⟨"S1", "D1", 5, some "model-img", some "model-vid"⟩ : RawStep)].map
        (enrichStep "abcdefghijk") ∧
      (∀ i : Nat, g.steps.get? i =
        ([(⟨"S1", "D1", 5, some "model-img", some "model-vid"⟩ : RawStep)].get? i).map
          (enrichStep "abcdefghijk")) ∧
      (∀ c : RawStep, ∀ iu vu : Option String,
        enrichStep "abcdefghijk" { c with imageUrl := iu, videoUrl := vu } =
          enrichStep "abcdefghijk" c) ∧
      (∀ c : RawStep,
        (enrichStep "abcdefghijk" c).imageUrl =
          "https://img.youtube.com/vi/" ++ "abcdefghijk" ++ "/hqdefault.jpg" ∧
        (enrichStep "abcdefghijk" c).videoUrl =
          "https://www.youtube.com/watch?v=" ++ "abcdefghijk" ++ "&t=" ++
            toString c.timestamp ++ "s") :=
  claim7_roundtrip "T" "A" "Th" "abcdefghijk" (some "resp") _
    [⟨"S1", "D1", 5, some "model-img", some "model-vid"⟩] (by rfl)

/-- C8 counterexample: on a non-JSON response the thrown message is
`Failed to parse AI response.` (with a trailing period), which differs from
the exact message the claim states. -/
theorem claim8_counterexample :
    (buildGuideT "t" "a" "th" "vid" (some "not json") (fun _ => .error ())).1 =
      .error "Failed to parse AI response." ∧
    parseFailMsg ≠ "Failed to parse AI response" ∧
    (buildGuideT "t" "a" "th" "vid" (some "not json") (fun _ => .error ())).1 ≠
      Except.error "Failed to parse AI response" := by
  refine ⟨rfl, by decide, ?_⟩
  intro h
  exact absurd (Except.error.inj h) (by decide)

/-- C8 (amended): for every response text failing to parse as JSON, the run
fails with the message `Failed to parse AI response.` (trailing period
included), exactly one parse attempt is made — on the effective response text,
with no repair or re-parse — and no guide data is produced. -/
theorem claim8_parse_failure (title author thumb vid : String)
    (aiText : Option String)
    (parse : String → Except Unit (List RawStep))
    (hp : parse (effectiveText aiText) = .error ()) :
    buildGuideT title author thumb vid aiText parse =
      (.error "Failed to parse AI response.", [effectiveText aiText]) := by
  simp [buildGuideT, hp, parseFailMsg]

/-- C8 witness: the amended statement on a concrete unparseable response. -/
theorem claim8_parse_failure_witness :
    buildGuideT "t" "a" "th" "vid" (some "not json") (fun _ => .error ()) =
      (.error "Failed to parse AI response.", [effectiveText (some "not json")]) :=
  claim8_parse_failure "t" "a" "th" "vid" (some "not json") (fun _ => .error ()) rfl

/-- C9: a successful preferred-language fetch of an ordered caption sequence
yields the blob built by mapping each item to `[Ns] text` (N the floored start
offset) and newline-joining; the code's blob coincides with the spec-worded
one, and the mapping preserves positions (hence chronological order). -/
theorem claim9_blob_format (manual : Option String)
    (hm : isTruthy manual = false)
    (items : List CaptionItem) (fDef : Except Unit (List CaptionItem)) :
    acquireTranscriptT manual (.ok items) fDef =
      (.ok (joinTranscript items), [.en]) ∧
    joinTranscript items = specTranscriptBlob items ∧
    (∀ i : Nat, (items.map formatCaption).get? i =
      (items.get? i).map formatCaption) := by
  refine ⟨by simp [acquireTranscriptT, hm], rfl, ?_⟩
  intro i; simp [List.get?_map]

/-- C9 witness: two captions, the first with fractional start 3/2 seconds,
format as `[1s] a` and `[2s] b` joined by a newline, in order. -/
theorem claim9_blob_format_witness :
    acquireTranscriptT none (.ok [⟨mkRat 3 2, "a"⟩, ⟨mkRat 2 1, "b"⟩]) (.error ()) =
      (.ok "[1s] a\n[2s] b", [.en]) := by
  have h := (claim9_blob_format none rfl
    [⟨mkRat 3 2, "a"⟩, ⟨mkRat 2 1, "b"⟩] (.error ())).1
  rw [h]
  rfl

/-- C10: an absent or empty model response text is substituted with the
literal `\x7b"steps":[]\x7d` before parsing, and (since that literal parses to an
empty steps array) the run succeeds with a guide of zero steps instead of
failing. -/
theorem claim10_empty_response (title author thumb vid : String)
    (aiText : Option String) (hempty : aiText = none ∨ aiText = some "")
    (parse : String → Except Unit (List RawStep))
    (hparse : parse emptyStepsLiteral = .ok []) :
    effectiveText aiText = emptyStepsLiteral ∧
    (buildGuideT title author thumb vid aiText parse).1 =
      .ok ⟨title, author, thumb, [], vid⟩ := by
  have he : effectiveText aiText = emptyStepsLiteral := by
    rcases hempty with rfl | rfl <;> rfl
  exact ⟨he, by simp [buildGuideT, he, hparse]⟩

/-- C10 witness: an empty response text with a parse behaving as `JSON.parse`
does on the substituted literal produces a zero-step guide. -/
theorem claim10_empty_response_witness :
    effectiveText (some "") = emptyStepsLiteral ∧
    (buildGuideT "T" "A" "Th" "abcdefghijk" (some "")
      (fun s => if s = emptyStepsLiteral then .ok [] else .error ())).1 =
      .ok ⟨"T", "A", "Th", [], "abcdefghijk"⟩ :=
  claim10_empty_response "T" "A" "Th" "abcdefghijk" (some "") (Or.inr rfl)
    (fun s => if s = emptyStepsLiteral then .ok [] else .error ()) (by simp)

end TubeGuide
